import Mathlib

/-!
Verification development for the fom-tools library: a shallow embedding of
the HLA Object Model Template deserializer (`fom-tools-lib/src/lib.rs`) and
proofs about its conversion layer.

Modelling conventions:
* The generic XML element tree produced by the external `xmltree` parser is
  modelled from the spec's Element Tree Accessor contract (section 4.1): a
  node carries a tag name, an attribute map and ordered children (text or
  nested element).  `Element.parse` itself (the tokenizer) stays external; the
  top-level `parse` takes the external parser's result.
* Rust functions that can `panic!` are embedded as `Except String` values:
  a panic becomes `Except.error` carrying the exact panic message, and the
  fail-fast abort of the whole conversion corresponds to the error
  short-circuiting through the `Except` monad.
* `str::trim` and `str::to_uppercase` are modelled character-wise
  (`Char.isWhitespace` / `Char.toUpper`); on the ASCII vocabulary tokens these
  tables use, the Unicode and ASCII mappings agree.
* The two self-referential class-tree converters recurse on the element
  tree.  They are defined with an explicit fuel argument instantiated with
  the syntactic size of the element, which strictly bounds the recursion
  depth (each recursive call is on a strictly smaller subtree), so the fuel
  is never exhausted; `ObjectClassType.fromElemFuel_congr` proves the result
  does not depend on the fuel once it is at least the element's size.
-/

/-! ## The XML element tree (external collaborator) -/

mutual
/-- Modelled from the spec: a node of the already-parsed generic XML tree
(the external `xmltree` collaborator): either a nested element or raw text. -/
inductive XMLNode where
  | element (e : Element)
  | text (s : String)

/-- Modelled from the spec: an XML element with a tag name, an attribute map
and ordered children. -/
inductive Element where
  | mk (name : String) (attributes : List (String × String)) (children : List XMLNode)
end

def Element.name : Element → String
  | .mk n _ _ => n

def Element.attributes : Element → List (String × String)
  | .mk _ a _ => a

def Element.children : Element → List XMLNode
  | .mk _ _ c => c

mutual
/-- Syntactic size of an element; used only as recursion fuel for the two
self-referential class-tree converters. -/
def Element.size : Element → Nat
  | .mk _ _ c => 1 + XMLNode.sizeList c

def XMLNode.size : XMLNode → Nat
  | .element e => 1 + e.size
  | .text _ => 1

def XMLNode.sizeList : List XMLNode → Nat
  | [] => 0
  | n :: rest => n.size + XMLNode.sizeList rest
end

/-- The text of a node, when it is a text node (`XMLNode::as_text`). -/
def XMLNode.asText : XMLNode → Option String
  | .element _ => none
  | .text s => some s

/-- `str::trim`: strip leading and trailing whitespace. -/
def trimString (s : String) : String :=
  ⟨((s.data.dropWhile Char.isWhitespace).reverse.dropWhile Char.isWhitespace).reverse⟩

/-- `str::to_uppercase`, character-wise. -/
def upperString (s : String) : String :=
  ⟨s.data.map Char.toUpper⟩

/-- `bool::from_str` (`attribute.parse::<bool>()`): exactly the literals
`true` and `false` parse; the `.unwrap()` panic on anything else is the
error case. -/
def parseBoolLiteral (s : String) : Except String Bool :=
  if s = "true" then .ok true
  else if s = "false" then .ok false
  else .error ("invalid bool literal: " ++ s)

/-- Decimal digit run to a number (helper for the unsigned-integer parses). -/
def decimalValue (l : List Char) : Nat :=
  l.foldl (fun acc c => acc * 10 + (c.toNat - 48)) 0

/-- `u16::from_str` / `u8::from_str`: an optional leading `+`, then decimal
digits, rejecting values above `bound`; the `.unwrap()` panic is the error
case. -/
def parseUnsigned (bound : Nat) (s : String) : Except String Nat :=
  let digits := match s.data with
    | '+' :: rest => rest
    | l => l
  if digits.isEmpty then .error ("invalid unsigned literal: " ++ s)
  else if digits.all Char.isDigit then
    if decimalValue digits ≤ bound then .ok (decimalValue digits)
    else .error ("unsigned literal out of range: " ++ s)
  else .error ("invalid unsigned literal: " ++ s)

/-! ## Element Tree Accessor -/

/-- `Element::get_child`: the first child element with the given name. -/
def Element.get_child (root : Element) (child_element_name : String) : Option Element :=
  root.children.findSome? fun node =>
    match node with
    | .element c => if c.name = child_element_name then some c else none
    | .text _ => none

/-- `Element::get_text`: the inner text of an element (the concatenated text
children), `none` when there is no text child. -/
def Element.get_text (e : Element) : Option String :=
  let texts := e.children.filterMap XMLNode.asText
  if texts.isEmpty then none else some (String.join texts)

/-- All child elements with the given name, in document order (the filter
shared by `get_text_of_child_elements` and
`get_text_of_child_elements_as_type`). -/
def childElementsNamed (root : Element) (child_element_name : String) : List Element :=
  root.children.filterMap fun node =>
    match node with
    | .element c => if c.name = child_element_name then some c else none
    | .text _ => none

/-- Return the trimmed text content of the provided element. -/
def get_element_text (e : Element) : String :=
  match e.get_text with
  | some text => trimString text
  | none => ""

/-- Return the trimmed text content of the named child element, `none` if the
child does not exist. -/
def get_text_of_child_element (root : Element) (child_element_name : String) : Option String :=
  (root.get_child child_element_name).map get_element_text

/-- Return the value of the named attribute, `none` if it does not exist. -/
def get_text_of_attribute (element : Element) (attribute_name : String) : Option String :=
  element.attributes.lookup attribute_name

/-- Required-text variant: absent child panics with the given message. -/
def get_text_of_child_element_or_panic (root : Element) (child_element_name : String)
    (panic_message : String) : Except String String :=
  match get_text_of_child_element root child_element_name with
  | some text => .ok text
  | none => .error panic_message

/-- Required-attribute variant: absent attribute panics with the given
message. -/
def get_text_of_attribute_or_panic (element : Element) (attribute_name : String)
    (panic_message : String) : Except String String :=
  match get_text_of_attribute element attribute_name with
  | some v => .ok v
  | none => .error panic_message

/-- `get_child_element_as_type` for a converter that can itself panic:
absent child is `none`, a present child is converted. -/
def get_child_element_as_type (conv : Element → Except String α) (root : Element)
    (child_element_name : String) : Except String (Option α) :=
  match root.get_child child_element_name with
  | some c => (conv c).map some
  | none => .ok none

/-- `get_child_element_as_type` for a total converter. -/
def get_child_element_as_pure_type (conv : Element → α) (root : Element)
    (child_element_name : String) : Option α :=
  (root.get_child child_element_name).map conv

/-- `get_attribute_as_type_or_panic`: absent attribute panics with the given
message, a present one is converted (the conversion may panic too). -/
def get_attribute_as_type_or_panic (conv : String → Except String α) (element : Element)
    (attribute_name : String) (panic_message : String) : Except String α :=
  match get_text_of_attribute element attribute_name with
  | some v => conv v
  | none => .error panic_message

/-- `get_child_element_as_type_or_panic`: absent child panics with the given
message. -/
def get_child_element_as_type_or_panic (conv : Element → Except String α) (root : Element)
    (child_element_name : String) (panic_message : String) : Except String α :=
  match root.get_child child_element_name with
  | some c => conv c
  | none => .error panic_message

/-- Total-converter variant of `get_child_element_as_type_or_panic`. -/
def get_child_element_as_pure_type_or_panic (conv : Element → α) (root : Element)
    (child_element_name : String) (panic_message : String) : Except String α :=
  match root.get_child child_element_name with
  | some c => .ok (conv c)
  | none => .error panic_message

/-- Return the trimmed text of all named child elements; empty when no such
child exists. -/
def get_text_of_child_elements (root : Element) (child_element_name : String) : List String :=
  (childElementsNamed root child_element_name).map get_element_text

/-- Convert every named child element; the list is empty when no such child
exists (fallible converter). -/
def get_text_of_child_elements_as_type (conv : Element → Except String α) (root : Element)
    (child_element_name : String) : Except String (List α) :=
  (childElementsNamed root child_element_name).mapM conv

/-- Convert every named child element (total converter). -/
def get_text_of_child_elements_as_pure_type (conv : Element → α) (root : Element)
    (child_element_name : String) : List α :=
  (childElementsNamed root child_element_name).map conv

/-- The `len() == 0 → None` convention used by the repeated-collection
fields. -/
def optionOfList (l : List α) : Option (List α) :=
  if l.isEmpty then none else some l

/-! ## Controlled-vocabulary converters and model-identification types -/

/-- `ModelType`: FOM or SOM; an unknown token panics. -/
inductive ModelType where
  | FOM
  | SOM
  deriving DecidableEq

def ModelType.ofText (text : String) : Except String ModelType :=
  match text with
  | "FOM" => .ok .FOM
  | "SOM" => .ok .SOM
  | _ => .error ("Unknown 'modelidentification -> type': " ++ text)

def ModelType.fromElem (e : Element) : Except String ModelType :=
  ModelType.ofText (get_element_text e)

/-- `SecurityClassificationType`: open vocabulary with the `Other` fallback. -/
inductive SecurityClassificationType where
  | Unclassified
  | Confidential
  | Secret
  | TopSecret
  | Other (text : String)
  deriving DecidableEq

def SecurityClassificationType.ofText (text : String) : SecurityClassificationType :=
  match text with
  | "Unclassified" => .Unclassified
  | "Confidential" => .Confidential
  | "Secret" => .Secret
  | "Top Secret" => .TopSecret
  | _ => .Other text

def SecurityClassificationType.fromElem (e : Element) : SecurityClassificationType :=
  SecurityClassificationType.ofText (get_element_text e)

/-- The text embedded in the open-vocabulary fallback variant, when the value
is that variant. -/
def SecurityClassificationType.fallbackText : SecurityClassificationType → Option String
  | .Other text => some text
  | _ => none

/-- `ApplicationDomainType`: open vocabulary with the `Other` fallback. -/
inductive ApplicationDomainType where
  | Analysis
  | Training
  | TestAndEvaluation
  | Engineering
  | Acquisition
  | Other (text : String)
  deriving DecidableEq

def ApplicationDomainType.ofText (text : String) : ApplicationDomainType :=
  match text with
  | "Analysis" => .Analysis
  | "Training" => .Training
  | "Test and Evaluation" => .TestAndEvaluation
  | "Engineering" => .Engineering
  | "Acquisition" => .Acquisition
  | _ => .Other text

def ApplicationDomainType.fromElem (e : Element) : ApplicationDomainType :=
  ApplicationDomainType.ofText (get_element_text e)

def ApplicationDomainType.fallbackText : ApplicationDomainType → Option String
  | .Other text => some text
  | _ => none

structure KeywordType where
  taxonomy : Option String
  keyword_value : String
  deriving DecidableEq

def KeywordType.fromElem (e : Element) : Except String KeywordType := do
  let taxonomy := get_text_of_child_element e "taxonomy"
  let keyword_value ← get_text_of_child_element_or_panic e "keywordValue"
    "No 'modelIdentification -> keyword -> keywordValue' element"
  pure { taxonomy := taxonomy, keyword_value := keyword_value }

/-- `PocTypeType`: closed vocabulary; an unknown token panics. -/
inductive PocTypeType where
  | PrimaryAuthor
  | Contributor
  | Proponent
  | Sponsor
  | ReleaseAuthority
  | TechnicalPoc
  deriving DecidableEq

def PocTypeType.ofText (text : String) : Except String PocTypeType :=
  match text with
  | "Primary author" => .ok .PrimaryAuthor
  | "Contributor" => .ok .Contributor
  | "Proponent" => .ok .Proponent
  | "Sponsor" => .ok .Sponsor
  | "Release authority" => .ok .ReleaseAuthority
  | "Technical POC" => .ok .TechnicalPoc
  | _ => .error ("Unknown 'modelIdentification -> poc -> pocType': " ++ text)

def PocTypeType.fromElem (e : Element) : Except String PocTypeType :=
  PocTypeType.ofText (get_element_text e)

structure PocType where
  poc_type : PocTypeType
  poc_name : Option String
  poc_org : Option String
  poc_telephones : Option (List String)
  poc_emails : Option (List String)
  deriving DecidableEq

def PocType.fromElem (e : Element) : Except String PocType := do
  let poc_type ← get_child_element_as_type_or_panic PocTypeType.fromElem e "pocType"
    "No 'modelIdentification -> poc -> pocType' found"
  let poc_name := get_text_of_child_element e "pocName"
  let poc_org := get_text_of_child_element e "pocOrg"
  let poc_telephones := optionOfList (get_text_of_child_elements e "pocTelephone")
  let poc_emails := optionOfList (get_text_of_child_elements e "pocEmail")
  pure { poc_type := poc_type, poc_name := poc_name, poc_org := poc_org,
         poc_telephones := poc_telephones, poc_emails := poc_emails }

structure IdReferenceType where
  reference_type : String
  identification : String
  deriving DecidableEq

def IdReferenceType.fromElem (e : Element) : Except String IdReferenceType := do
  let reference_type ← get_text_of_child_element_or_panic e "type"
    "No 'modelIdentification -> reference -> type' found"
  let identification ← get_text_of_child_element_or_panic e "identification"
    "No 'modelIdentification -> reference -> identification' found"
  pure { reference_type := reference_type, identification := identification }

/-- `GlyphTypeType`: the glyph-format vocabulary.  The source uppercases the
attribute before matching (`attribute.to_uppercase()`), then panics on an
unknown token. -/
inductive GlyphTypeType where
  | Bitmap
  | Jpg
  | Gif
  | Png
  | Tiff
  deriving DecidableEq

def GlyphTypeType.fromAttr (attributeValue : String) : Except String GlyphTypeType :=
  match upperString attributeValue with
  | "BITMAP" => .ok .Bitmap
  | "JPG" => .ok .Jpg
  | "GIF" => .ok .Gif
  | "PNG" => .ok .Png
  | "TIFF" => .ok .Tiff
  | _ => .error ("Unknown 'modelIdentification -> glyph -> type': " ++ attributeValue)

structure GlyphType where
  href : Option String
  glyph_type : GlyphTypeType
  height : Nat
  width : Nat
  alt : String
  deriving DecidableEq

def GlyphType.fromElem (e : Element) : Except String GlyphType := do
  let href := get_text_of_child_element e "href"
  let glyph_type ← get_attribute_as_type_or_panic GlyphTypeType.fromAttr e "type"
    "No 'modelIdentification -> glyph[type]' found"
  let heightText ← get_text_of_attribute_or_panic e "height"
    "No 'modelIdentification -> glyph[height]' found"
  let height ← parseUnsigned 65535 heightText
  let widthText ← get_text_of_attribute_or_panic e "width"
    "No 'modelIdentification -> glyph[width]' found"
  let width ← parseUnsigned 65535 widthText
  let alt ← get_text_of_attribute_or_panic e "alt"
    "No 'modelIdentification -> glyph[alt]' found"
  pure { href := href, glyph_type := glyph_type, height := height, width := width, alt := alt }

structure ModelIdentificationType where
  name : String
  model_type : ModelType
  version : String
  modification_date : String
  security_classification : SecurityClassificationType
  release_restriction : Option (List String)
  purpose : Option String
  application_domain : Option ApplicationDomainType
  description : String
  use_limitation : Option String
  use_history : Option (List String)
  keywords : Option (List KeywordType)
  poc : List PocType
  references : Option (List IdReferenceType)
  other : Option String
  glyph : Option GlyphType
  deriving DecidableEq

def ModelIdentificationType.fromElem (e : Element) : Except String ModelIdentificationType := do
  let name ← get_text_of_child_element_or_panic e "name"
    "No 'modelIdentification -> name' element"
  let model_type ← get_child_element_as_type_or_panic ModelType.fromElem e "type"
    "No 'modelIdentification -> type' element"
  let version ← get_text_of_child_element_or_panic e "version"
    "No 'modelIdentification -> version' element"
  let modification_date ← get_text_of_child_element_or_panic e "modificationDate"
    "No 'modelIdentification -> modificationDate' element"
  let security_classification ← get_child_element_as_pure_type_or_panic
    SecurityClassificationType.fromElem e "securityClassification"
    "No 'modelIdentification -> securityClassification' element"
  let release_restriction := optionOfList (get_text_of_child_elements e "releaseRestriction")
  let purpose := get_text_of_child_element e "purpose"
  let application_domain := get_child_element_as_pure_type ApplicationDomainType.fromElem e
    "applicationDomain"
  let description ← get_text_of_child_element_or_panic e "description"
    "No 'modelIdentification -> description' element"
  let use_limitation := get_text_of_child_element e "useLimitation"
  let use_history := optionOfList (get_text_of_child_elements e "useHistory")
  let keywords ← (get_text_of_child_elements_as_type KeywordType.fromElem e "keyword").map
    optionOfList
  let poc ← get_text_of_child_elements_as_type PocType.fromElem e "poc"
  let references ← (get_text_of_child_elements_as_type IdReferenceType.fromElem e
    "reference").map optionOfList
  let other := get_text_of_child_element e "other"
  let glyph ← get_child_element_as_type GlyphType.fromElem e "glyph"
  pure { name := name, model_type := model_type, version := version,
         modification_date := modification_date,
         security_classification := security_classification,
         release_restriction := release_restriction, purpose := purpose,
         application_domain := application_domain, description := description,
         use_limitation := use_limitation, use_history := use_history,
         keywords := keywords, poc := poc, references := references, other := other,
         glyph := glyph }

/-! ## Service utilization, objects and interactions -/

structure ServiceInfoType where
  service_section : String
  is_callback : Bool
  is_used : Bool
  deriving DecidableEq

/-- `ServiceInfoType::from`: `section`, `isCallback` and `isUsed` attributes,
all mandatory, the booleans parsed with `parse().unwrap()`.  (`section` is a
Lean keyword, so the field is called `service_section` here.) -/
def ServiceInfoType.fromElem (e : Element) : Except String ServiceInfoType := do
  let service_section ← get_text_of_attribute_or_panic e "section"
    "No 'objectModel -> serviceUtilization -> section' found"
  let is_callback_text ← get_text_of_attribute_or_panic e "isCallback"
    "No 'objectModel -> serviceUtilization -> isCallback' found"
  let is_callback ← parseBoolLiteral is_callback_text
  let is_used_text ← get_text_of_attribute_or_panic e "isUsed"
    "No 'objectModel -> serviceUtilization -> isUsed' found"
  let is_used ← parseBoolLiteral is_used_text
  pure { service_section := service_section, is_callback := is_callback, is_used := is_used }

/-- `ServiceUtiliizationType` (the struct name's spelling is the source's):
only the `connect` and `disconnect` service entries are read — the struct
ends with the comment "... and the rest".  Note both missing-child panics
carry the `connect` message. -/
structure ServiceUtiliizationType where
  connect : ServiceInfoType
  disconnect : ServiceInfoType
  deriving DecidableEq

def ServiceUtiliizationType.fromElem (e : Element) : Except String ServiceUtiliizationType := do
  let connect ← get_child_element_as_type_or_panic ServiceInfoType.fromElem e "connect"
    "No 'objectModel -> serviceUtilization -> connect' found"
  let disconnect ← get_child_element_as_type_or_panic ServiceInfoType.fromElem e "disconnect"
    "No 'objectModel -> serviceUtilization -> connect' found"
  pure { connect := connect, disconnect := disconnect }

/-- `SharingType`: closed vocabulary; an unknown token panics. -/
inductive SharingType where
  | Publish
  | Subscribe
  | PublishSubscribe
  | Neither
  deriving DecidableEq

def SharingType.ofText (text : String) : Except String SharingType :=
  match text with
  | "Publish" => .ok .Publish
  | "Subscribe" => .ok .Subscribe
  | "PublishSubscribe" => .ok .PublishSubscribe
  | "Neither" => .ok .Neither
  | _ => .error ("Unknown sharing type: " ++ text)

def SharingType.fromElem (e : Element) : Except String SharingType :=
  SharingType.ofText (get_element_text e)

/-- `ReferenceType`: a plain name reference, never validated. -/
structure ReferenceType where
  value : String
  deriving DecidableEq

def ReferenceType.fromElem (e : Element) : ReferenceType :=
  { value := get_element_text e }

/-- `UpdateType`: closed vocabulary; an unknown token panics. -/
inductive UpdateType where
  | Static
  | Periodic
  | Conditional
  | Na
  deriving DecidableEq

def UpdateType.ofText (text : String) : Except String UpdateType :=
  match text with
  | "Static" => .ok .Static
  | "Periodic" => .ok .Periodic
  | "Conditional" => .ok .Conditional
  | "NA" => .ok .Na
  | _ => .error ("Unknown UpdateType: " ++ text)

def UpdateType.fromElem (e : Element) : Except String UpdateType :=
  UpdateType.ofText (get_element_text e)

/-- `OwnershipType`: closed vocabulary; an unknown token panics. -/
inductive OwnershipType where
  | Divest
  | Acquire
  | DivestAcquire
  | NoTransfer
  deriving DecidableEq

def OwnershipType.ofText (text : String) : Except String OwnershipType :=
  match text with
  | "Divest" => .ok .Divest
  | "Acquire" => .ok .Acquire
  | "DivestAcquire" => .ok .DivestAcquire
  | "NoTransfer" => .ok .NoTransfer
  | _ => .error ("Unknown OwnershipType: " ++ text)

def OwnershipType.fromElem (e : Element) : Except String OwnershipType :=
  OwnershipType.ofText (get_element_text e)

/-- `OrderType`: closed vocabulary; an unknown token panics. -/
inductive OrderType where
  | Receive
  | TimeStamp
  deriving DecidableEq

def OrderType.ofText (text : String) : Except String OrderType :=
  match text with
  | "Receive" => .ok .Receive
  | "TimeStamp" => .ok .TimeStamp
  | _ => .error ("Unknown OrderType: " ++ text)

def OrderType.fromElem (e : Element) : Except String OrderType :=
  OrderType.ofText (get_element_text e)

/-- `AttributeType`: an object-class attribute (the `onwership` field
spelling is the source's).  The `dimensions` field comes from a `dimensions`
wrapper child: when the wrapper is present its `dimension` children are
collected (possibly an empty list); the field is `none` only when the
wrapper is absent. -/
structure AttributeType where
  name : String
  data_type : ReferenceType
  update_type : UpdateType
  update_condition : Option String
  onwership : OwnershipType
  sharing : SharingType
  dimensions : Option (List ReferenceType)
  transportation : ReferenceType
  order : OrderType
  semantics : Option String
  deriving DecidableEq

def AttributeType.fromElem (e : Element) : Except String AttributeType := do
  let name ← get_text_of_child_element_or_panic e "name"
    "No 'objectModel -> objects -> objectClass -> attribute -> name' found"
  let data_type ← get_child_element_as_pure_type_or_panic ReferenceType.fromElem e "dataType"
    "No 'objectModel -> objects -> objectClass -> attribute -> dataType' found"
  let update_type ← get_child_element_as_type_or_panic UpdateType.fromElem e "updateType"
    "No 'objectModel -> objects -> objectClass -> attribute -> updateType' found"
  let update_condition := get_text_of_child_element e "updateCondition"
  let onwership ← get_child_element_as_type_or_panic OwnershipType.fromElem e "ownership"
    "No 'objectModel -> objects -> objectClass -> attribute -> ownership' found"
  let sharing ← get_child_element_as_type_or_panic SharingType.fromElem e "sharing"
    "No 'objectModel -> objects -> objectClass -> attribute -> sharing' found"
  let dimensions := (e.get_child "dimensions").map fun d =>
    get_text_of_child_elements_as_pure_type ReferenceType.fromElem d "dimension"
  let transportation ← get_child_element_as_pure_type_or_panic ReferenceType.fromElem e
    "transportation"
    "No 'objectModel -> objects -> objectClass -> attribute -> transportation' found"
  let order ← get_child_element_as_type_or_panic OrderType.fromElem e "order"
    "No 'objectModel -> objects -> objectClass -> attribute -> order' found"
  let semantics := get_text_of_child_element e "semantics"
  pure { name := name, data_type := data_type, update_type := update_type,
         update_condition := update_condition, onwership := onwership, sharing := sharing,
         dimensions := dimensions, transportation := transportation, order := order,
         semantics := semantics }

/-- `ObjectClassType`: the self-referential object-class tree node. -/
inductive ObjectClassType where
  | mk (name : String) (sharing : SharingType) (semantics : Option String)
       (attributes : Option (List AttributeType))
       (object_classes : Option (List ObjectClassType))

def ObjectClassType.name : ObjectClassType → String
  | .mk n _ _ _ _ => n

def ObjectClassType.sharing : ObjectClassType → SharingType
  | .mk _ s _ _ _ => s

def ObjectClassType.semantics : ObjectClassType → Option String
  | .mk _ _ s _ _ => s

def ObjectClassType.attributes : ObjectClassType → Option (List AttributeType)
  | .mk _ _ _ a _ => a

def ObjectClassType.object_classes : ObjectClassType → Option (List ObjectClassType)
  | .mk _ _ _ _ c => c

/-- `ObjectClassType::from`, with explicit recursion fuel: name and sharing
are mandatory, `attribute` children become the attribute list, and the
nested classes are gathered from the children named `objectClasses` (the
source's spelling) and converted recursively. -/
def ObjectClassType.fromElemFuel : Nat → Element → Except String ObjectClassType
  | 0, _ => .error "recursion fuel exhausted"
  | fuel+1, e => do
    let name ← get_text_of_child_element_or_panic e "name"
      "No 'objectModel -> objects -> objectClass -> name' found"
    let sharing ← get_child_element_as_type_or_panic SharingType.fromElem e "sharing"
      "No 'objectModel -> objects -> objectClass -> sharing' found"
    let semantics := get_text_of_child_element e "semantics"
    let attributes ← get_text_of_child_elements_as_type AttributeType.fromElem e "attribute"
    let object_classes ← (childElementsNamed e "objectClasses").mapM
      (ObjectClassType.fromElemFuel fuel)
    pure (.mk name sharing semantics (optionOfList attributes) (optionOfList object_classes))

def ObjectClassType.fromElem (e : Element) : Except String ObjectClassType :=
  ObjectClassType.fromElemFuel e.size e

structure ObjectsType where
  root_object_class : ObjectClassType

def ObjectsType.fromElem (e : Element) : Except String ObjectsType := do
  let root_object_class ← get_child_element_as_type_or_panic ObjectClassType.fromElem e
    "objectClass" "No 'objectModel -> objects -> objectClass' found"
  pure { root_object_class := root_object_class }

structure ParameterType where
  name : String
  data_type : ReferenceType
  semantics : Option String
  deriving DecidableEq

def ParameterType.fromElem (e : Element) : Except String ParameterType := do
  let name ← get_text_of_child_element_or_panic e "name"
    "No 'interactions -> interactionClass -> parameter -> name' found"
  let data_type ← get_child_element_as_pure_type_or_panic ReferenceType.fromElem e "dataType"
    "No 'interactions -> interactionClass -> parameter -> dataType' found"
  let semantics := get_text_of_child_element e "semantics"
  pure { name := name, data_type := data_type, semantics := semantics }

/-- `InteractionClassType`: the self-referential interaction-class tree
node.  Unlike the object-class converter, its nested classes are gathered
from children named `interactionClass` and its `dimensions` field collects
`dimension` children of the class element directly (no wrapper). -/
inductive InteractionClassType where
  | mk (name : String) (sharing : SharingType) (dimensions : Option (List ReferenceType))
       (transportation : ReferenceType) (order : OrderType) (semantics : Option String)
       (parameters : Option (List ParameterType))
       (interaction_classes : Option (List InteractionClassType))

def InteractionClassType.name : InteractionClassType → String
  | .mk n _ _ _ _ _ _ _ => n

def InteractionClassType.interaction_classes :
    InteractionClassType → Option (List InteractionClassType)
  | .mk _ _ _ _ _ _ _ c => c

def InteractionClassType.fromElemFuel : Nat → Element → Except String InteractionClassType
  | 0, _ => .error "recursion fuel exhausted"
  | fuel+1, e => do
    let name ← get_text_of_child_element_or_panic e "name"
      "No 'objectModel -> interactions -> interactionClass -> name' found"
    let sharing ← get_child_element_as_type_or_panic SharingType.fromElem e "sharing"
      "No 'objectModel -> interactions -> interactionClass -> sharing' found"
    let dimensions := optionOfList
      (get_text_of_child_elements_as_pure_type ReferenceType.fromElem e "dimension")
    let transportation ← get_child_element_as_pure_type_or_panic ReferenceType.fromElem e
      "transportation"
      "No 'objectModel -> interactions -> interactionClass -> transportation' found"
    let order ← get_child_element_as_type_or_panic OrderType.fromElem e "order"
      "No 'objectModel -> interactions -> interactionClass -> order"
    let semantics := get_text_of_child_element e "semantics"
    let parameters ← get_text_of_child_elements_as_type ParameterType.fromElem e "parameter"
    let interaction_classes ← (childElementsNamed e "interactionClass").mapM
      (InteractionClassType.fromElemFuel fuel)
    pure (.mk name sharing dimensions transportation order semantics
      (optionOfList parameters) (optionOfList interaction_classes))

def InteractionClassType.fromElem (e : Element) : Except String InteractionClassType :=
  InteractionClassType.fromElemFuel e.size e

structure InteractionsType where
  interactions : InteractionClassType

def InteractionsType.fromElem (e : Element) : Except String InteractionsType := do
  let interactions ← get_child_element_as_type_or_panic InteractionClassType.fromElem e
    "interactionClass" "No 'objectModel -> interactions -> interactionClass' found"
  pure { interactions := interactions }

/-- `DimensionsType` is an empty struct in the source: its converter reads
nothing from the element. -/
structure DimensionsType where
  deriving DecidableEq

def DimensionsType.fromElem (_e : Element) : DimensionsType := {}

structure TimeTypeType where
  data_type : ReferenceType
  semantics : Option String
  deriving DecidableEq

def TimeTypeType.fromElem (e : Element) : Except String TimeTypeType := do
  let data_type ← get_child_element_as_pure_type_or_panic ReferenceType.fromElem e "dataType"
    "No 'time type -> dataType' found"
  let semantics := get_text_of_child_element e "semantics"
  pure { data_type := data_type, semantics := semantics }

structure TimeType where
  time_stamp : Option TimeTypeType
  lookahead : Option TimeTypeType
  deriving DecidableEq

def TimeType.fromElem (e : Element) : Except String TimeType := do
  let time_stamp ← get_child_element_as_type TimeTypeType.fromElem e "timeStamp"
  let lookahead ← get_child_element_as_type TimeTypeType.fromElem e "lookahead"
  pure { time_stamp := time_stamp, lookahead := lookahead }

structure TagType where
  data_type : ReferenceType
  semantics : Option String
  deriving DecidableEq

def TagType.fromElem (e : Element) : Except String TagType := do
  let data_type ← get_child_element_as_pure_type_or_panic ReferenceType.fromElem e "dataType"
    "No 'tag type -> dataType' found"
  let semantics := get_text_of_child_element e "semantics"
  pure { data_type := data_type, semantics := semantics }

structure TagsType where
  update_reflect_tag : Option TagType
  send_receive_tag : Option TagType
  delete_remove_tag : Option TagType
  divestiture_request_tag : Option TagType
  divestiture_completion_tag : Option TagType
  acquisition_request_tag : Option TagType
  request_update_tag : Option TagType
  deriving DecidableEq

def TagsType.fromElem (e : Element) : Except String TagsType := do
  let update_reflect_tag ← get_child_element_as_type TagType.fromElem e "update_reflect_tag"
  let send_receive_tag ← get_child_element_as_type TagType.fromElem e "send_receive_tag"
  let delete_remove_tag ← get_child_element_as_type TagType.fromElem e "delete_remove_tag"
  let divestiture_request_tag ← get_child_element_as_type TagType.fromElem e
    "divestiture_request_tag"
  let divestiture_completion_tag ← get_child_element_as_type TagType.fromElem e
    "divestiture_completion_tag"
  let acquisition_request_tag ← get_child_element_as_type TagType.fromElem e
    "acquisition_request_tag"
  let request_update_tag ← get_child_element_as_type TagType.fromElem e "request_update_tag"
  pure { update_reflect_tag := update_reflect_tag, send_receive_tag := send_receive_tag,
         delete_remove_tag := delete_remove_tag,
         divestiture_request_tag := divestiture_request_tag,
         divestiture_completion_tag := divestiture_completion_tag,
         acquisition_request_tag := acquisition_request_tag,
         request_update_tag := request_update_tag }

/-- `CapabilityType`: closed vocabulary; an unknown token panics. -/
inductive CapabilityType where
  | Register
  | Achieve
  | RegisterAchieve
  | NoSynch
  | Na
  deriving DecidableEq

def CapabilityType.ofText (text : String) : Except String CapabilityType :=
  match text with
  | "Register" => .ok .Register
  | "Achieve" => .ok .Achieve
  | "RegisterAchieve" => .ok .RegisterAchieve
  | "NoSynch" => .ok .NoSynch
  | "NA" => .ok .Na
  | _ => .error ("Unknown capability: " ++ text)

def CapabilityType.fromElem (e : Element) : Except String CapabilityType :=
  CapabilityType.ofText (get_element_text e)

structure SynchronizationPointType where
  label : String
  data_type : Option ReferenceType
  capability : CapabilityType
  semantics : Option String
  deriving DecidableEq

def SynchronizationPointType.fromElem (e : Element) :
    Except String SynchronizationPointType := do
  let label ← get_text_of_child_element_or_panic e "label"
    "No 'synchronizationPoint -> label' found"
  let data_type := get_child_element_as_pure_type ReferenceType.fromElem e "dataType"
  let capability ← get_child_element_as_type_or_panic CapabilityType.fromElem e "capability"
    "No 'synchronizationPoint -> capability' found"
  let semantics := get_text_of_child_element e "semantics"
  pure { label := label, data_type := data_type, capability := capability,
         semantics := semantics }

structure SynchronizationsType where
  synchronization_points : Option (List SynchronizationPointType)
  deriving DecidableEq

def SynchronizationsType.fromElem (e : Element) : Except String SynchronizationsType := do
  let synchronization_points ← (get_text_of_child_elements_as_type
    SynchronizationPointType.fromElem e "synchronizationPoint").map optionOfList
  pure { synchronization_points := synchronization_points }

/-- `ReliableType`: closed vocabulary; an unknown token panics. -/
inductive ReliableType where
  | Yes
  | No
  deriving DecidableEq

def ReliableType.ofText (text : String) : Except String ReliableType :=
  match text with
  | "Yes" => .ok .Yes
  | "No" => .ok .No
  | _ => .error ("Unexpected reliable type: " ++ text)

def ReliableType.fromElem (e : Element) : Except String ReliableType :=
  ReliableType.ofText (get_element_text e)

structure TransportationType where
  name : String
  reliable : ReliableType
  semantics : Option String
  deriving DecidableEq

def TransportationType.fromElem (e : Element) : Except String TransportationType := do
  let name ← get_text_of_child_element_or_panic e "name" "No 'transportation -> name' found"
  let reliable ← get_child_element_as_type_or_panic ReliableType.fromElem e "reliable"
    "No 'transportation -> reliable' found"
  let semantics := get_text_of_child_element e "semantics"
  pure { name := name, reliable := reliable, semantics := semantics }

structure TransportationsType where
  transportations : Option (List TransportationType)
  deriving DecidableEq

def TransportationsType.fromElem (e : Element) : Except String TransportationsType := do
  let transportations ← (get_text_of_child_elements_as_type TransportationType.fromElem e
    "transportation").map optionOfList
  pure { transportations := transportations }

/-! ## Switches -/

/-- `SwitchType`: a boolean switch flag; the attribute text is parsed with
`parse().unwrap()` and must be a boolean literal. -/
structure SwitchType where
  is_enabled : Bool
  deriving DecidableEq

def SwitchType.fromAttr (attributeValue : String) : Except String SwitchType := do
  let is_enabled ← parseBoolLiteral attributeValue
  pure { is_enabled := is_enabled }

/-- `ResignSwitchType`: closed vocabulary; an unknown token panics.  Matched
directly on the attribute value (no trimming, no case folding). -/
inductive ResignSwitchType where
  | UnconditionallyDivestAttributes
  | DeleteObjects
  | CancelPendingOwnershipAcquisitions
  | DeleteObjectsThenDivest
  | CancelThenDeleteThenDivest
  | NoAction
  deriving DecidableEq

def ResignSwitchType.fromAttr (attributeValue : String) : Except String ResignSwitchType :=
  match attributeValue with
  | "UnconditionallyDivestAttributes" => .ok .UnconditionallyDivestAttributes
  | "DeleteObjects" => .ok .DeleteObjects
  | "CancelPendingOwnershipAcquisitions" => .ok .CancelPendingOwnershipAcquisitions
  | "DeleteObjectsThenDivest" => .ok .DeleteObjectsThenDivest
  | "CancelThenDeleteThenDivest" => .ok .CancelThenDeleteThenDivest
  | "NoAction" => .ok .NoAction
  | _ => .error ("Unknown resign switch type: " ++ attributeValue)

/-- `SwitchesType`: exactly 11 named flags, all read from mandatory
attributes of the `switches` element. -/
structure SwitchesType where
  auto_provide : SwitchType
  convey_region_designator_sets : SwitchType
  convey_producing_federate : SwitchType
  attribute_scope_advisory : SwitchType
  attribute_relevance_advisory : SwitchType
  object_class_relevance_advisory : SwitchType
  interaction_relevance_advisory : SwitchType
  service_reporting : SwitchType
  exception_reporting : SwitchType
  delay_subscription_evaluation : SwitchType
  automatic_resign_action : ResignSwitchType
  deriving DecidableEq

def SwitchesType.fromElem (e : Element) : Except String SwitchesType := do
  let auto_provide ← get_attribute_as_type_or_panic SwitchType.fromAttr e
    "auto_provide" "No 'switch -> auto_provide' found"
  let convey_region_designator_sets ← get_attribute_as_type_or_panic SwitchType.fromAttr e
    "convey_region_designator_sets" "No 'switch -> convey_region_designator_sets' found"
  let convey_producing_federate ← get_attribute_as_type_or_panic SwitchType.fromAttr e
    "convey_producing_federate" "No 'switch -> convey_producing_federate' found"
  let attribute_scope_advisory ← get_attribute_as_type_or_panic SwitchType.fromAttr e
    "attribute_scope_advisory" "No 'switch -> attribute_scope_advisory' found"
  let attribute_relevance_advisory ← get_attribute_as_type_or_panic SwitchType.fromAttr e
    "attribute_relevance_advisory" "No 'switch -> attribute_relevance_advisory' found"
  let object_class_relevance_advisory ← get_attribute_as_type_or_panic SwitchType.fromAttr e
    "object_class_relevance_advisory" "No 'switch -> object_class_relevance_advisory' found"
  let interaction_relevance_advisory ← get_attribute_as_type_or_panic SwitchType.fromAttr e
    "interaction_relevance_advisory" "No 'switch -> interaction_relevance_advisory' found"
  let service_reporting ← get_attribute_as_type_or_panic SwitchType.fromAttr e
    "service_reporting" "No 'switch -> service_reporting' found"
  let exception_reporting ← get_attribute_as_type_or_panic SwitchType.fromAttr e
    "exception_reporting" "No 'switch -> exception_reporting' found"
  let delay_subscription_evaluation ← get_attribute_as_type_or_panic SwitchType.fromAttr e
    "delay_subscription_evaluation" "No 'switch -> delay_subscription_evaluation' found"
  let automatic_resign_action ← get_attribute_as_type_or_panic ResignSwitchType.fromAttr e
    "automatic_resign_action" "No 'switch -> automatic_resign_action' found"
  pure { auto_provide := auto_provide,
         convey_region_designator_sets := convey_region_designator_sets,
         convey_producing_federate := convey_producing_federate,
         attribute_scope_advisory := attribute_scope_advisory,
         attribute_relevance_advisory := attribute_relevance_advisory,
         object_class_relevance_advisory := object_class_relevance_advisory,
         interaction_relevance_advisory := interaction_relevance_advisory,
         service_reporting := service_reporting,
         exception_reporting := exception_reporting,
         delay_subscription_evaluation := delay_subscription_evaluation,
         automatic_resign_action := automatic_resign_action }

/-- The names of the 11 mandatory switch attributes, in the order the
converter reads them. -/
def switchAttributeNames : List String :=
  ["auto_provide", "convey_region_designator_sets", "convey_producing_federate",
   "attribute_scope_advisory", "attribute_relevance_advisory",
   "object_class_relevance_advisory", "interaction_relevance_advisory",
   "service_reporting", "exception_reporting", "delay_subscription_evaluation",
   "automatic_resign_action"]

/-! ## Update rates, data types and notes -/

structure RateType where
  value : String
  deriving DecidableEq

def RateType.fromElem (e : Element) : RateType :=
  { value := get_element_text e }

structure UpdateRateType where
  name : String
  rate : RateType
  semantics : Option String
  deriving DecidableEq

def UpdateRateType.fromElem (e : Element) : Except String UpdateRateType := do
  let name ← get_text_of_child_element_or_panic e "name" "No 'updateRate -> name' found"
  let rate ← get_child_element_as_pure_type_or_panic RateType.fromElem e "rate"
    "No 'updateRate -> rate' found"
  let semantics := get_text_of_child_element e "semantics"
  pure { name := name, rate := rate, semantics := semantics }

structure UpdateRatesType where
  update_rates : Option (List UpdateRateType)
  deriving DecidableEq

def UpdateRatesType.fromElem (e : Element) : Except String UpdateRatesType := do
  let update_rates ← (get_text_of_child_elements_as_type UpdateRateType.fromElem e
    "updateRate").map optionOfList
  pure { update_rates := update_rates }

structure SizeType where
  size : Nat
  deriving DecidableEq

def SizeType.fromElem (e : Element) : Except String SizeType := do
  let size ← parseUnsigned 255 (get_element_text e)
  pure { size := size }

/-- `EndianType`: closed vocabulary; an unknown token panics. -/
inductive EndianType where
  | Big
  | Little
  deriving DecidableEq

def EndianType.ofText (text : String) : Except String EndianType :=
  match text with
  | "Big" => .ok .Big
  | "Little" => .ok .Little
  | _ => .error ("Unknown endian type: " ++ text)

def EndianType.fromElem (e : Element) : Except String EndianType :=
  EndianType.ofText (get_element_text e)

structure BasicDataType where
  name : String
  size : SizeType
  interpretation : String
  endian : EndianType
  encoding : String
  deriving DecidableEq

def BasicDataType.fromElem (e : Element) : Except String BasicDataType := do
  let name ← get_text_of_child_element_or_panic e "name" "No 'basicData -> name' found"
  let size ← get_child_element_as_type_or_panic SizeType.fromElem e "size"
    "No 'basicData -> size' found"
  let interpretation ← get_text_of_child_element_or_panic e "interpretation"
    "No 'basicData -> interpretation' found"
  let endian ← get_child_element_as_type_or_panic EndianType.fromElem e "endian"
    "No 'basicData -> endian' found"
  let encoding ← get_text_of_child_element_or_panic e "encoding"
    "No 'basicData -> encoding' found"
  pure { name := name, size := size, interpretation := interpretation, endian := endian,
         encoding := encoding }

structure BasicDataRepresentationsType where
  basic_datas : Option (List BasicDataType)
  deriving DecidableEq

def BasicDataRepresentationsType.fromElem (e : Element) :
    Except String BasicDataRepresentationsType := do
  let basic_datas ← (get_text_of_child_elements_as_type BasicDataType.fromElem e
    "basicData").map optionOfList
  pure { basic_datas := basic_datas }

structure SimpleDataType where
  name : String
  representation : ReferenceType
  units : Option String
  resolution : Option String
  accuracy : Option String
  semantics : Option String
  deriving DecidableEq

def SimpleDataType.fromElem (e : Element) : Except String SimpleDataType := do
  let name ← get_text_of_child_element_or_panic e "name" "No 'simpleData -> name' found"
  let representation ← get_child_element_as_pure_type_or_panic ReferenceType.fromElem e
    "representation" "No 'simpleData -> representation' found"
  let units := get_text_of_child_element e "units"
  let resolution := get_text_of_child_element e "resolution"
  let accuracy := get_text_of_child_element e "accuracy"
  let semantics := get_text_of_child_element e "semantics"
  pure { name := name, representation := representation, units := units,
         resolution := resolution, accuracy := accuracy, semantics := semantics }

structure SimpleDataTypesType where
  simple_datas : Option (List SimpleDataType)
  deriving DecidableEq

def SimpleDataTypesType.fromElem (e : Element) : Except String SimpleDataTypesType := do
  let simple_datas ← (get_text_of_child_elements_as_type SimpleDataType.fromElem e
    "simpleData").map optionOfList
  pure { simple_datas := simple_datas }

structure EnumeratorType where
  name : String
  value : List String
  deriving DecidableEq

def EnumeratorType.fromElem (e : Element) : Except String EnumeratorType := do
  let name ← get_text_of_child_element_or_panic e "name"
    "No 'enumeratedData -> enumerator -> name' found"
  let value := get_text_of_child_elements e "value"
  pure { name := name, value := value }

structure EnumeratedDataType where
  name : String
  representation : ReferenceType
  semantics : Option String
  enumerators : Option (List EnumeratorType)
  deriving DecidableEq

def EnumeratedDataType.fromElem (e : Element) : Except String EnumeratedDataType := do
  let name ← get_text_of_child_element_or_panic e "name" "No 'enumeratedData -> name' found"
  let representation ← get_child_element_as_pure_type_or_panic ReferenceType.fromElem e
    "representation" "No 'enumeratedData -> representation' found"
  let semantics := get_text_of_child_element e "semantics"
  let enumerators ← (get_text_of_child_elements_as_type EnumeratorType.fromElem e
    "enumerator").map optionOfList
  pure { name := name, representation := representation, semantics := semantics,
         enumerators := enumerators }

structure EnumeratedDataTypesType where
  enumerated_datas : Option (List EnumeratedDataType)
  deriving DecidableEq

def EnumeratedDataTypesType.fromElem (e : Element) : Except String EnumeratedDataTypesType := do
  let enumerated_datas ← (get_text_of_child_elements_as_type EnumeratedDataType.fromElem e
    "enumeratedData").map optionOfList
  pure { enumerated_datas := enumerated_datas }

/-- `ArrayDataTypeEncodingType`: closed vocabulary; an unknown token
panics. -/
inductive ArrayDataTypeEncodingType where
  | HlaFixedArray
  | HlaVariableArray
  deriving DecidableEq

def ArrayDataTypeEncodingType.ofText (text : String) : Except String ArrayDataTypeEncodingType :=
  match text with
  | "HLAfixedArray" => .ok .HlaFixedArray
  | "HLAvariableArray" => .ok .HlaVariableArray
  | _ => .error ("Unknown array data type encoding: " ++ text)

def ArrayDataTypeEncodingType.fromElem (e : Element) : Except String ArrayDataTypeEncodingType :=
  ArrayDataTypeEncodingType.ofText (get_element_text e)

/-- `ArrayDataType`: note the `data_type` field is read from a child named
`representation` in the source. -/
structure ArrayDataType where
  name : String
  data_type : ReferenceType
  cardinality : String
  encoding : ArrayDataTypeEncodingType
  semantics : Option String
  deriving DecidableEq

def ArrayDataType.fromElem (e : Element) : Except String ArrayDataType := do
  let name ← get_text_of_child_element_or_panic e "name" "No 'arrayData -> name' found"
  let data_type ← get_child_element_as_pure_type_or_panic ReferenceType.fromElem e
    "representation" "No 'arrayData -> representation' found"
  let cardinality ← get_text_of_child_element_or_panic e "cardinality"
    "No 'arrayData -> cardinality' found"
  let encoding ← get_child_element_as_type_or_panic ArrayDataTypeEncodingType.fromElem e
    "encoding" "No 'arrayData -> encoding' found"
  let semantics := get_text_of_child_element e "semantics"
  pure { name := name, data_type := data_type, cardinality := cardinality,
         encoding := encoding, semantics := semantics }

structure ArrayDataTypesType where
  array_datas : Option (List ArrayDataType)
  deriving DecidableEq

def ArrayDataTypesType.fromElem (e : Element) : Except String ArrayDataTypesType := do
  let array_datas ← (get_text_of_child_elements_as_type ArrayDataType.fromElem e
    "arrayData").map optionOfList
  pure { array_datas := array_datas }

/-- `FixedRecordEncodingType`: closed vocabulary with a single token. -/
inductive FixedRecordEncodingType where
  | HlaFixedRecord
  deriving DecidableEq

def FixedRecordEncodingType.ofText (text : String) : Except String FixedRecordEncodingType :=
  match text with
  | "HLAfixedRecord" => .ok .HlaFixedRecord
  | _ => .error ("Unknown fixed record encoding: " ++ text)

def FixedRecordEncodingType.fromElem (e : Element) : Except String FixedRecordEncodingType :=
  FixedRecordEncodingType.ofText (get_element_text e)

structure FieldType where
  name : String
  data_type : ReferenceType
  semantics : Option String
  deriving DecidableEq

/-- `FieldType::from` (the `fixedRecrodData` spelling in the panic message is
the source's). -/
def FieldType.fromElem (e : Element) : Except String FieldType := do
  let name ← get_text_of_child_element_or_panic e "name"
    "No 'fixedRecrodData -> field -> name' found"
  let data_type ← get_child_element_as_pure_type_or_panic ReferenceType.fromElem e "dataType"
    "No 'fixedRecordData -> field -> dataType' found"
  let semantics := get_text_of_child_element e "semantics"
  pure { name := name, data_type := data_type, semantics := semantics }

structure FixedRecordDataType where
  name : String
  encoding : FixedRecordEncodingType
  semantics : Option String
  fields : Option (List FieldType)
  deriving DecidableEq

def FixedRecordDataType.fromElem (e : Element) : Except String FixedRecordDataType := do
  let name ← get_text_of_child_element_or_panic e "name" "No 'fixedRecordData -> name' found"
  let encoding ← get_child_element_as_type_or_panic FixedRecordEncodingType.fromElem e
    "encoding" "No 'fixedRecordData -> encoding' found"
  let semantics := get_text_of_child_element e "semantics"
  let fields ← (get_text_of_child_elements_as_type FieldType.fromElem e "field").map
    optionOfList
  pure { name := name, encoding := encoding, semantics := semantics, fields := fields }

structure FixedRecordDataTypesType where
  fixed_record_datas : Option (List FixedRecordDataType)
  deriving DecidableEq

def FixedRecordDataTypesType.fromElem (e : Element) :
    Except String FixedRecordDataTypesType := do
  let fixed_record_datas ← (get_text_of_child_elements_as_type FixedRecordDataType.fromElem e
    "fixedRecordData").map optionOfList
  pure { fixed_record_datas := fixed_record_datas }

/-- `VariantRecordEncodingType`: closed vocabulary with a single token. -/
inductive VariantRecordEncodingType where
  | HlaVariantRecord
  deriving DecidableEq

def VariantRecordEncodingType.ofText (text : String) :
    Except String VariantRecordEncodingType :=
  match text with
  | "HLAvariantRecord" => .ok .HlaVariantRecord
  | _ => .error ("Unknown variant record encoding: " ++ text)

def VariantRecordEncodingType.fromElem (e : Element) :
    Except String VariantRecordEncodingType :=
  VariantRecordEncodingType.ofText (get_element_text e)

structure AlternativeType where
  enumerator : String
  name : Option String
  data_type : Option ReferenceType
  semantics : Option String
  deriving DecidableEq

def AlternativeType.fromElem (e : Element) : Except String AlternativeType := do
  let enumerator ← get_text_of_child_element_or_panic e "enumerator"
    "No 'variantRecordData -> alternative -> enumerator' found"
  let name := get_text_of_child_element e "name"
  let data_type := get_child_element_as_pure_type ReferenceType.fromElem e "dataType"
  let semantics := get_text_of_child_element e "semantics"
  pure { enumerator := enumerator, name := name, data_type := data_type,
         semantics := semantics }

structure VariantRecordDataType where
  name : String
  discriminant : String
  data_type : ReferenceType
  alternatives : Option (List AlternativeType)
  encoding : VariantRecordEncodingType
  semantics : Option String
  deriving DecidableEq

def VariantRecordDataType.fromElem (e : Element) : Except String VariantRecordDataType := do
  let name ← get_text_of_child_element_or_panic e "name"
    "No 'variantRecordData -> name' found"
  let discriminant ← get_text_of_child_element_or_panic e "discriminant"
    "No 'variantRecordData -> discriminant' found"
  let data_type ← get_child_element_as_pure_type_or_panic ReferenceType.fromElem e "dataType"
    "No 'variantRecordData -> dataType' found"
  let alternatives ← (get_text_of_child_elements_as_type AlternativeType.fromElem e
    "alternative").map optionOfList
  let encoding ← get_child_element_as_type_or_panic VariantRecordEncodingType.fromElem e
    "encoding" "No 'variantRecordData -> encoding' found"
  let semantics := get_text_of_child_element e "semantics"
  pure { name := name, discriminant := discriminant, data_type := data_type,
         alternatives := alternatives, encoding := encoding, semantics := semantics }

structure VariantRecordDataTypesType where
  variant_record_datas : Option (List VariantRecordDataType)
  deriving DecidableEq

def VariantRecordDataTypesType.fromElem (e : Element) :
    Except String VariantRecordDataTypesType := do
  let variant_record_datas ← (get_text_of_child_elements_as_type
    VariantRecordDataType.fromElem e "variantRecordData").map optionOfList
  pure { variant_record_datas := variant_record_datas }

/-- `DataTypesType` (the `variand_record_data_types` field spelling is the
source's): the six catalogs, all mandatory children of `dataTypes`. -/
structure DataTypesType where
  basic_data_representations : BasicDataRepresentationsType
  simple_data_types : SimpleDataTypesType
  enumerated_data_types : EnumeratedDataTypesType
  array_data_types : ArrayDataTypesType
  fixed_record_data_types : FixedRecordDataTypesType
  variand_record_data_types : VariantRecordDataTypesType
  deriving DecidableEq

def DataTypesType.fromElem (e : Element) : Except String DataTypesType := do
  let basic_data_representations ← get_child_element_as_type_or_panic
    BasicDataRepresentationsType.fromElem e "basicDataRepresentations"
    "No 'dataTypes -> basicDataRepresentations' found"
  let simple_data_types ← get_child_element_as_type_or_panic SimpleDataTypesType.fromElem e
    "simpleDataTypes" "No 'dataTypes -> simpleDataTypes' found"
  let enumerated_data_types ← get_child_element_as_type_or_panic
    EnumeratedDataTypesType.fromElem e "enumeratedDataTypes"
    "No 'dataTypes -> enumeratedDataTypes' found"
  let array_data_types ← get_child_element_as_type_or_panic ArrayDataTypesType.fromElem e
    "arrayDataTypes" "No 'dataTypes -> arrayDataTypes' found"
  let fixed_record_data_types ← get_child_element_as_type_or_panic
    FixedRecordDataTypesType.fromElem e "fixedRecordDataTypes"
    "No 'dataTypes -> fixedRecordDataTypes' found"
  let variand_record_data_types ← get_child_element_as_type_or_panic
    VariantRecordDataTypesType.fromElem e "variantRecordDataTypes"
    "No 'dataTypes -> variantRecordDataTypes' found"
  pure { basic_data_representations := basic_data_representations,
         simple_data_types := simple_data_types,
         enumerated_data_types := enumerated_data_types,
         array_data_types := array_data_types,
         fixed_record_data_types := fixed_record_data_types,
         variand_record_data_types := variand_record_data_types }

structure NoteType where
  label : String
  semantics : Option String
  deriving DecidableEq

def NoteType.fromElem (e : Element) : Except String NoteType := do
  let label ← get_text_of_child_element_or_panic e "label" "No 'note -> label' found"
  let semantics := get_text_of_child_element e "semantics"
  pure { label := label, semantics := semantics }

structure NotesType where
  notes : Option (List NoteType)
  deriving DecidableEq

def NotesType.fromElem (e : Element) : Except String NotesType := do
  let notes ← (get_text_of_child_elements_as_type NoteType.fromElem e "note").map
    optionOfList
  pure { notes := notes }

/-! ## The object model assembler -/

structure ObjectModelType where
  model_identification : ModelIdentificationType
  service_utilization : Option ServiceUtiliizationType
  objects : ObjectsType
  interactions : InteractionsType
  dimensions : DimensionsType
  time : Option TimeType
  tags : Option TagsType
  synchronizations : Option SynchronizationsType
  transportations : TransportationsType
  switches : SwitchesType
  update_rates : Option UpdateRatesType
  data_types : DataTypesType
  notes : Option NotesType

def ObjectModelType.fromElem (e : Element) : Except String ObjectModelType := do
  let model_identification ← get_child_element_as_type_or_panic
    ModelIdentificationType.fromElem e "modelIdentification"
    "No 'modelIdentification' element"
  let service_utilization ← get_child_element_as_type ServiceUtiliizationType.fromElem e
    "serviceUtilization"
  let objects ← get_child_element_as_type_or_panic ObjectsType.fromElem e "objects"
    "No 'objects' element"
  let interactions ← get_child_element_as_type_or_panic InteractionsType.fromElem e
    "interactions" "No 'interactions' element"
  let dimensions ← get_child_element_as_pure_type_or_panic DimensionsType.fromElem e
    "dimensions" "No 'dimensions' element"
  let time ← get_child_element_as_type TimeType.fromElem e "time"
  let tags ← get_child_element_as_type TagsType.fromElem e "tags"
  let synchronizations ← get_child_element_as_type SynchronizationsType.fromElem e
    "synchronizations"
  let transportations ← get_child_element_as_type_or_panic TransportationsType.fromElem e
    "transportations" "No 'transportations' element"
  let switches ← get_child_element_as_type_or_panic SwitchesType.fromElem e "switches"
    "No 'switches' element"
  let update_rates ← get_child_element_as_type UpdateRatesType.fromElem e "updateRates"
  let data_types ← get_child_element_as_type_or_panic DataTypesType.fromElem e "dataTypes"
    "No 'dataTypes' element"
  let notes ← get_child_element_as_type NotesType.fromElem e "notes"
  pure { model_identification := model_identification,
         service_utilization := service_utilization, objects := objects,
         interactions := interactions, dimensions := dimensions, time := time,
         tags := tags, synchronizations := synchronizations,
         transportations := transportations, switches := switches,
         update_rates := update_rates, data_types := data_types, notes := notes }

/-- A failure of the top-level parse: either the external tree parser's
syntax error, propagated unchanged, or a panic raised by a converter (in the
source a converter panic unwinds out of `parse` rather than being returned;
the embedding folds both abort channels into one result type). -/
inductive ParseFailure where
  | syntaxError (message : String)
  | conversionPanic (message : String)
  deriving DecidableEq

/-- `parse`: hand the input to the external tree parser (its result is the
`source` argument here), run the ObjectModel converter on the root, print
the model name and return `Ok(())` — the populated `ObjectModelType` is a
local that is dropped, not returned. -/
def parse (source : Except String Element) : Except ParseFailure Unit :=
  match source with
  | .error message => .error (.syntaxError message)
  | .ok root =>
    match ObjectModelType.fromElem root with
    | .error message => .error (.conversionPanic message)
    | .ok _fom => .ok ()

/-! ## Concrete test documents -/

/-- An element with a single text child. -/
def textElem (name body : String) : Element := .mk name [] [.text body]

/-- A text-only child element as a node. -/
def tNode (name body : String) : XMLNode := .element (textElem name body)

/-- A minimal valid `modelIdentification` element. -/
def miElem (modelName : String) : Element :=
  .mk "modelIdentification" []
    [tNode "name" modelName, tNode "type" "FOM", tNode "version" "1.0",
     tNode "modificationDate" "2024-01-01", tNode "securityClassification" "Unclassified",
     tNode "description" "test model"]

/-- An object-class element with the given tag name, class name, and extra
children (used to build nested class trees under both spellings of the
nested-class tag). -/
def ocNode (tag className : String) (nested : List XMLNode) : Element :=
  .mk tag [] ([tNode "name" className, tNode "sharing" "Neither"] ++ nested)

def objectsElem : Element := .mk "objects" [] [.element (ocNode "objectClass" "Root" [])]

def interactionRootElem : Element :=
  .mk "interactionClass" []
    [tNode "name" "IRoot", tNode "sharing" "Neither", tNode "transportation" "HLAreliable",
     tNode "order" "Receive"]

def interactionsElem : Element := .mk "interactions" [] [.element interactionRootElem]

/-- All 11 switch attributes with valid values. -/
def switchesAttrs : List (String × String) :=
  [("auto_provide", "true"), ("convey_region_designator_sets", "true"),
   ("convey_producing_federate", "false"), ("attribute_scope_advisory", "true"),
   ("attribute_relevance_advisory", "true"), ("object_class_relevance_advisory", "false"),
   ("interaction_relevance_advisory", "true"), ("service_reporting", "true"),
   ("exception_reporting", "false"), ("delay_subscription_evaluation", "true"),
   ("automatic_resign_action", "NoAction")]

def switchesFull : Element := .mk "switches" switchesAttrs []

/-- A `switches` element with `auto_provide` removed and the other 10
attributes intact. -/
def switchesNoAuto : Element := .mk "switches" switchesAttrs.tail []

def dataTypesEmpty : Element :=
  .mk "dataTypes" []
    [.element (.mk "basicDataRepresentations" [] []),
     .element (.mk "simpleDataTypes" [] []),
     .element (.mk "enumeratedDataTypes" [] []),
     .element (.mk "arrayDataTypes" [] []),
     .element (.mk "fixedRecordDataTypes" [] []),
     .element (.mk "variantRecordDataTypes" [] [])]

/-- A minimal valid object-model document containing only the mandatory
sections, with the given model name. -/
def minimalDoc (modelName : String) : Element :=
  .mk "objectModel" []
    [.element (miElem modelName), .element objectsElem, .element interactionsElem,
     .element (.mk "dimensions" [] []), .element (.mk "transportations" [] []),
     .element switchesFull, .element dataTypesEmpty]

/-- A depth-3 nested object-class tree (root → child → grandchild, plus a
second child of the root) with the nested classes tagged `objectClass`, the
tag the OMT schema uses and the one `ObjectsType::from` itself looks up. -/
def depth3Singular : Element :=
  ocNode "objectClass" "Root"
    [.element (ocNode "objectClass" "Child"
       [.element (ocNode "objectClass" "GrandChild" [])]),
     .element (ocNode "objectClass" "Second" [])]

/-- The same tree with the nested classes tagged `objectClasses`, the name
the object-class converter actually searches for. -/
def depth3Plural : Element :=
  ocNode "objectClass" "Root"
    [.element (ocNode "objectClasses" "Child"
       [.element (ocNode "objectClasses" "GrandChild" [])]),
     .element (ocNode "objectClasses" "Second" [])]

/-- An `attribute` element that is valid except that its `dimensions`
wrapper child is present but holds no `dimension` children. -/
def attrWithEmptyDims : Element :=
  .mk "attribute" []
    [tNode "name" "position", tNode "dataType" "Vec3", tNode "updateType" "Static",
     tNode "ownership" "NoTransfer", tNode "sharing" "Neither",
     .element (.mk "dimensions" [] []),
     tNode "transportation" "HLAreliable", tNode "order" "Receive"]

/-- A service entry element (`connect`, `disconnect`, ...) with the three
mandatory attributes. -/
def serviceEntry (tag : String) : XMLNode :=
  .element (.mk tag [("section", "4.5"), ("isCallback", "false"), ("isUsed", "true")] [])

def suWithExtra : Element :=
  .mk "serviceUtilization" []
    [serviceEntry "connect", serviceEntry "disconnect",
     serviceEntry "requestAttributeOwnershipDivestiture"]

def suPlain : Element :=
  .mk "serviceUtilization" [] [serviceEntry "connect", serviceEntry "disconnect"]

def suNoConnect : Element := .mk "serviceUtilization" [] [serviceEntry "disconnect"]

def suNoDisconnect : Element := .mk "serviceUtilization" [] [serviceEntry "connect"]

/-- Pre-order traversal of an object-class tree, listing each node's name;
`fuel` bounds the traversal depth (any fuel at least the tree's depth gives
the full traversal). -/
def ObjectClassType.preorderNamesFuel : Nat → ObjectClassType → List String
  | 0, _ => []
  | fuel+1, t => t.name :: ((t.object_classes.getD []).map
      (ObjectClassType.preorderNamesFuel fuel)).flatten

/-- The model identification record that `miElem "MiniFom"` converts to. -/
def miniMi : ModelIdentificationType :=
  { name := "MiniFom", model_type := .FOM, version := "1.0",
    modification_date := "2024-01-01", security_classification := .Unclassified,
    release_restriction := none, purpose := none, application_domain := none,
    description := "test model", use_limitation := none, use_history := none,
    keywords := none, poc := [], references := none, other := none, glyph := none }

/-- The attribute record that `attrWithEmptyDims` converts to: note the
present-but-empty dimension list. -/
def miniAttr : AttributeType :=
  { name := "position", data_type := { value := "Vec3" }, update_type := .Static,
    update_condition := none, onwership := .NoTransfer, sharing := .Neither,
    dimensions := some [], transportation := { value := "HLAreliable" },
    order := .Receive, semantics := none }

/-! ## General lemmas about the embedding -/

theorem except_bind_ok {α β : Type} {x : Except String α} {f : α → Except String β} {b : β} :
    (x >>= f) = .ok b ↔ ∃ a, x = .ok a ∧ f a = .ok b := by
  cases x <;> simp [Bind.bind, Except.bind]

theorem except_bind_isOk {α β : Type} {x : Except String α} {f : α → Except String β}
    (h : (x >>= f).isOk = true) : ∃ a, x = .ok a ∧ (f a).isOk = true := by
  cases x with
  | ok a => exact ⟨a, rfl, h⟩
  | error e => simp [Bind.bind, Except.bind, Except.isOk, Except.toBool] at h

theorem get_attribute_as_type_or_panic_isOk {α : Type} {conv : String → Except String α}
    {e : Element} {n msg : String}
    (h : (get_attribute_as_type_or_panic conv e n msg).isOk = true) :
    (get_text_of_attribute e n).isSome = true := by
  unfold get_attribute_as_type_or_panic at h
  cases hl : get_text_of_attribute e n with
  | some v => rfl
  | none => rw [hl] at h; simp [Except.isOk, Except.toBool] at h

theorem get_attribute_as_type_or_panic_none {α : Type} (conv : String → Except String α)
    {e : Element} {n msg : String} (h : get_text_of_attribute e n = none) :
    get_attribute_as_type_or_panic conv e n msg = .error msg := by
  unfold get_attribute_as_type_or_panic
  rw [h]

theorem get_text_of_child_element_or_panic_none {root : Element} {n msg : String}
    (h : root.get_child n = none) :
    get_text_of_child_element_or_panic root n msg = .error msg := by
  unfold get_text_of_child_element_or_panic get_text_of_child_element
  rw [h]
  rfl

theorem get_child_element_as_type_or_panic_none {α : Type} (conv : Element → Except String α)
    {root : Element} {n msg : String} (h : root.get_child n = none) :
    get_child_element_as_type_or_panic conv root n msg = .error msg := by
  unfold get_child_element_as_type_or_panic
  rw [h]

theorem Element.size_pos (e : Element) : 0 < e.size := by
  cases e with
  | mk n a c =>
    unfold Element.size
    omega

theorem XMLNode.size_le_sizeList {n : XMLNode} {l : List XMLNode} (h : n ∈ l) :
    n.size ≤ XMLNode.sizeList l := by
  induction l with
  | nil => cases h
  | cons a rest ih =>
    rcases List.mem_cons.mp h with h' | h'
    · subst h'
      unfold XMLNode.sizeList
      omega
    · have := ih h'
      unfold XMLNode.sizeList
      omega

theorem size_lt_of_mem_childElementsNamed {e : Element} {n : String} {c : Element}
    (h : c ∈ childElementsNamed e n) : c.size < e.size := by
  cases e with
  | mk nm attrs ch =>
    unfold childElementsNamed at h
    simp only [Element.children] at h
    obtain ⟨node, hmem, hpick⟩ := List.mem_filterMap.mp h
    cases node with
    | element c2 =>
      simp only at hpick
      by_cases hn : c2.name = n
      · rw [if_pos hn] at hpick
        cases hpick
        have h1 := XMLNode.size_le_sizeList hmem
        unfold XMLNode.size at h1
        have h2 : (Element.mk nm attrs ch).size = 1 + XMLNode.sizeList ch := rfl
        rw [h2]
        omega
      · rw [if_neg hn] at hpick
        cases hpick
    | text s =>
      simp only at hpick
      cases hpick

theorem list_mapM_except_congr {α β : Type} {f g : α → Except String β} :
    ∀ {l : List α}, (∀ a ∈ l, f a = g a) → l.mapM f = l.mapM g := by
  intro l
  induction l with
  | nil => intro _; rfl
  | cons a rest ih =>
    intro h
    rw [List.mapM_cons, List.mapM_cons, h a (List.mem_cons_self a rest),
      ih (fun b hb => h b (List.mem_cons_of_mem a hb))]

/-- Fuel adequacy for the recursive object-class converter: any fuel at
least the element's syntactic size gives the same result, so instantiating
the fuel with `e.size` (as `ObjectClassType.fromElem` does) embeds the
unbounded recursion of the source faithfully. -/
theorem ObjectClassType.fromElemFuel_congr :
    ∀ fuel₁ : Nat, ∀ fuel₂ : Nat, ∀ e : Element, e.size ≤ fuel₁ → e.size ≤ fuel₂ →
      ObjectClassType.fromElemFuel fuel₁ e = ObjectClassType.fromElemFuel fuel₂ e := by
  intro fuel₁
  induction fuel₁ with
  | zero =>
    intro fuel₂ e h1 _
    exact absurd h1 (by have := Element.size_pos e; omega)
  | succ f ih =>
    intro fuel₂ e h1 h2
    obtain ⟨g, rfl⟩ : ∃ g, fuel₂ = g + 1 :=
      ⟨fuel₂ - 1, by have := Element.size_pos e; omega⟩
    unfold ObjectClassType.fromElemFuel
    have hmap : (childElementsNamed e "objectClasses").mapM
        (ObjectClassType.fromElemFuel f) =
        (childElementsNamed e "objectClasses").mapM (ObjectClassType.fromElemFuel g) := by
      apply list_mapM_except_congr
      intro c hc
      have hlt := size_lt_of_mem_childElementsNamed hc
      exact ih g c (by omega) (by omega)
    simp only [hmap]

/-! ## Claim C2: model type on unknown tokens -/

/-- Claim C2 (counterexample): a `modelIdentification.type` element whose
trimmed text is the unknown token `XOM` does not convert to an
open-vocabulary fallback — the conversion fails (panics), because
`ModelType` has no fallback variant. -/
theorem c2_unknown_model_type_fails :
    ModelType.fromElem (textElem "type" "XOM") =
      .error "Unknown 'modelidentification -> type': XOM" := rfl

/-- Claim C2 (amended): the model-type vocabulary is closed in the code:
`FOM` and `SOM` convert to their variants, and every other token makes the
conversion fail with the Unknown-type panic; no fallback variant carrying
the token exists. -/
theorem c2_model_type_closed (s : String) (h1 : s ≠ "FOM") (h2 : s ≠ "SOM") :
    ModelType.ofText s = .error ("Unknown 'modelidentification -> type': " ++ s) ∧
    ModelType.ofText "FOM" = .ok .FOM ∧ ModelType.ofText "SOM" = .ok .SOM := by
  refine ⟨?_, rfl, rfl⟩
  unfold ModelType.ofText
  split <;> simp_all

/-- Witness for C2's amended theorem at the concrete token `XOM`. -/
theorem c2_model_type_closed_witness :
    ModelType.ofText "XOM" = .error "Unknown 'modelidentification -> type': XOM" ∧
    ModelType.ofText "FOM" = .ok .FOM ∧ ModelType.ofText "SOM" = .ok .SOM :=
  c2_model_type_closed "XOM" (by decide) (by decide)

/-! ## Claim C5: case sensitivity of vocabulary matching -/

/-- Claim C5 (counterexample): the glyph-format converter is not
case-sensitive: both `png` and `PNG` — two tokens differing only in letter
case — convert to the `Png` variant. -/
theorem c5_glyph_case_insensitive :
    GlyphTypeType.fromAttr "png" = .ok .Png ∧ GlyphTypeType.fromAttr "PNG" = .ok .Png :=
  ⟨rfl, rfl⟩

/-- Claim C5 (amended): the controlled-vocabulary converters other than the
glyph-format one match case-sensitively (shown here for the order
vocabulary: `Receive` is the only token mapping to `Receive`, and lowercase
`receive` fails), while the glyph-format converter uppercases its token
before matching, so exactly the strings whose uppercasing equals `PNG`
convert to the `Png` variant. -/
theorem c5_vocabulary_matching (s : String) :
    (GlyphTypeType.fromAttr s = .ok .Png ↔ upperString s = "PNG") ∧
    (OrderType.ofText s = .ok .Receive ↔ s = "Receive") ∧
    (OrderType.ofText "receive").isOk = false := by
  refine ⟨?_, ?_, rfl⟩
  · unfold GlyphTypeType.fromAttr
    split <;> simp_all
  · unfold OrderType.ofText
    split <;> simp_all

/-- Witness for C5's amended theorem at the concrete tokens `png` and
`Receive`. -/
theorem c5_vocabulary_matching_witness :
    GlyphTypeType.fromAttr "png" = .ok .Png ∧ OrderType.ofText "Receive" = .ok .Receive :=
  ⟨(c5_vocabulary_matching "png").1.mpr (by decide),
   (c5_vocabulary_matching "Receive").2.1.mpr rfl⟩

/-! ## Claim C7: closed vocabularies -/

/-- Claim C7: for the four closed vocabularies (order, reliability,
endianness, synchronization capability) every known token converts
deterministically to its variant and every other token fails with the
Unrecognized-Value panic; in particular a `transportation.reliable` element
containing `Maybe` fails. -/
theorem c7_closed_vocabularies (s : String) :
    (OrderType.ofText "Receive" = .ok .Receive ∧
      OrderType.ofText "TimeStamp" = .ok .TimeStamp ∧
      (s ≠ "Receive" → s ≠ "TimeStamp" →
        OrderType.ofText s = .error ("Unknown OrderType: " ++ s))) ∧
    (ReliableType.ofText "Yes" = .ok .Yes ∧ ReliableType.ofText "No" = .ok .No ∧
      (s ≠ "Yes" → s ≠ "No" →
        ReliableType.ofText s = .error ("Unexpected reliable type: " ++ s))) ∧
    (EndianType.ofText "Big" = .ok .Big ∧ EndianType.ofText "Little" = .ok .Little ∧
      (s ≠ "Big" → s ≠ "Little" →
        EndianType.ofText s = .error ("Unknown endian type: " ++ s))) ∧
    (CapabilityType.ofText "Register" = .ok .Register ∧
      CapabilityType.ofText "Achieve" = .ok .Achieve ∧
      CapabilityType.ofText "RegisterAchieve" = .ok .RegisterAchieve ∧
      CapabilityType.ofText "NoSynch" = .ok .NoSynch ∧
      CapabilityType.ofText "NA" = .ok .Na ∧
      (s ≠ "Register" → s ≠ "Achieve" → s ≠ "RegisterAchieve" → s ≠ "NoSynch" → s ≠ "NA" →
        CapabilityType.ofText s = .error ("Unknown capability: " ++ s))) ∧
    ReliableType.fromElem (textElem "reliable" "Maybe") =
      .error "Unexpected reliable type: Maybe" := by
  refine ⟨⟨rfl, rfl, fun h1 h2 => ?_⟩, ⟨rfl, rfl, fun h1 h2 => ?_⟩,
    ⟨rfl, rfl, fun h1 h2 => ?_⟩, ⟨rfl, rfl, rfl, rfl, rfl, fun h1 h2 h3 h4 h5 => ?_⟩, rfl⟩
  · unfold OrderType.ofText
    split <;> simp_all
  · unfold ReliableType.ofText
    split <;> simp_all
  · unfold EndianType.ofText
    split <;> simp_all
  · unfold CapabilityType.ofText
    split <;> simp_all

/-- Witness for C7 at the concrete unknown token `Maybe`. -/
theorem c7_closed_vocabularies_witness :
    OrderType.ofText "Maybe" = .error "Unknown OrderType: Maybe" ∧
    ReliableType.ofText "Maybe" = .error "Unexpected reliable type: Maybe" :=
  ⟨(c7_closed_vocabularies "Maybe").1.2.2 (by decide) (by decide),
   (c7_closed_vocabularies "Maybe").2.1.2.2 (by decide) (by decide)⟩

/-! ## Claim C9: open-vocabulary fallbacks preserve the token -/

/-- Claim C9: for the security-classification and application-domain
converters, every unknown token `x` (the element's trimmed text content)
produces the `Other` fallback variant embedding exactly `x`
(`fallback_text (convert x) = x`), and each element-level converter is the
text-level converter applied to the element's extracted text. -/
theorem c9_open_fallback_verbatim (x : String) (e : Element) :
    (x ≠ "Unclassified" → x ≠ "Confidential" → x ≠ "Secret" → x ≠ "Top Secret" →
      SecurityClassificationType.ofText x = .Other x ∧
      (SecurityClassificationType.ofText x).fallbackText = some x) ∧
    (x ≠ "Analysis" → x ≠ "Training" → x ≠ "Test and Evaluation" → x ≠ "Engineering" →
      x ≠ "Acquisition" →
      ApplicationDomainType.ofText x = .Other x ∧
      (ApplicationDomainType.ofText x).fallbackText = some x) ∧
    SecurityClassificationType.fromElem e =
      SecurityClassificationType.ofText (get_element_text e) ∧
    ApplicationDomainType.fromElem e = ApplicationDomainType.ofText (get_element_text e) := by
  refine ⟨fun h1 h2 h3 h4 => ?_, fun h1 h2 h3 h4 h5 => ?_, rfl, rfl⟩
  · have hx : SecurityClassificationType.ofText x = .Other x := by
      unfold SecurityClassificationType.ofText
      split <;> simp_all
    rw [hx]
    exact ⟨rfl, rfl⟩
  · have hx : ApplicationDomainType.ofText x = .Other x := by
      unfold ApplicationDomainType.ofText
      split <;> simp_all
    rw [hx]
    exact ⟨rfl, rfl⟩

/-- Witness for C9 at the concrete unknown token `Restricted`. -/
theorem c9_open_fallback_verbatim_witness :
    SecurityClassificationType.ofText "Restricted" = .Other "Restricted" ∧
    ApplicationDomainType.ofText "Wargaming" = .Other "Wargaming" :=
  ⟨((c9_open_fallback_verbatim "Restricted" (textElem "x" "x")).1 (by decide) (by decide)
      (by decide) (by decide)).1,
   ((c9_open_fallback_verbatim "Wargaming" (textElem "x" "x")).2.1 (by decide) (by decide)
      (by decide) (by decide) (by decide)).1⟩

theorem get_child_element_as_type_or_panic_some {α : Type} (conv : Element → Except String α)
    {root : Element} {n msg : String} {c : Element} (h : root.get_child n = some c) :
    get_child_element_as_type_or_panic conv root n msg = conv c := by
  unfold get_child_element_as_type_or_panic
  rw [h]

/-! ## Claim C1: the top-level parse -/

/-- Claim C1 (counterexample): `parse` does not return the populated
ObjectModel.  Two valid documents whose converted models carry different
model-identification names give the very same parse result (`Ok(())`): the
converted document is dropped inside `parse`, so nothing of it is
returned. -/
theorem c1_parse_discards_model :
    parse (.ok (minimalDoc "ModelA")) = parse (.ok (minimalDoc "ModelB")) ∧
    (ObjectModelType.fromElem (minimalDoc "ModelA")).toOption.map
      (fun m => m.model_identification.name) = some "ModelA" ∧
    (ObjectModelType.fromElem (minimalDoc "ModelB")).toOption.map
      (fun m => m.model_identification.name) = some "ModelB" :=
  ⟨rfl, rfl, rfl⟩

/-- Claim C1 (amended): `parse` either propagates the external tree parser's
syntax error, or applies the ObjectModel converter to the root element and,
when the whole conversion succeeds, returns unit — the fully populated
document is built internally but discarded, not returned — or aborts with
the first conversion panic raised anywhere in the composition; it never
returns a partial ObjectModel (its only success value is `()`, produced
exactly when the full conversion succeeded). -/
theorem c1_parse_outcome (source : Except String Element) :
    (∀ msg, source = .error msg → parse source = .error (.syntaxError msg)) ∧
    (∀ root, source = .ok root →
      ((ObjectModelType.fromElem root).isOk = true → parse source = .ok ()) ∧
      (∀ msg, ObjectModelType.fromElem root = .error msg →
        parse source = .error (.conversionPanic msg))) := by
  refine ⟨fun msg h => ?_, fun root h => ⟨fun hok => ?_, fun msg hmsg => ?_⟩⟩
  · rw [h]
    rfl
  · cases hm : ObjectModelType.fromElem root with
    | ok m => rw [h]; simp [parse, hm]
    | error msg => rw [hm] at hok; simp [Except.isOk, Except.toBool] at hok
  · rw [h]
    simp [parse, hmsg]

/-- Witness for C1's amended theorem: a concrete successful parse and a
concrete propagated syntax error. -/
theorem c1_parse_outcome_witness :
    parse (.ok (minimalDoc "ModelA")) = .ok () ∧
    parse (.error "unexpected end of stream") =
      .error (.syntaxError "unexpected end of stream") :=
  ⟨((c1_parse_outcome (.ok (minimalDoc "ModelA"))).2 (minimalDoc "ModelA") rfl).1 rfl,
   (c1_parse_outcome (.error "unexpected end of stream")).1 "unexpected end of stream" rfl⟩

/-! ## Claim C4: nested object classes -/

/-- Claim C4 (code bug): the object-class converter gathers nested classes
from children named `objectClasses`, but nested classes in an OMT document
are `objectClass` elements (the tag `ObjectsType::from` itself looks up for
the root, and the analogue of the `interactionClass` tag the interaction
converter uses).  On the depth-3 document with schema-standard singular
tags, the produced tree's pre-order traversal has exactly 1 node instead of
the expected 4 — the nested classes are silently dropped; the same tree
tagged `objectClasses` converts to all 4 nodes, showing the recursion
itself works and only the searched name diverges. -/
theorem c4_nested_singular_dropped :
    (ObjectClassType.fromElem depth3Singular).toOption.map
      (ObjectClassType.preorderNamesFuel 10) = some ["Root"] ∧
    (ObjectClassType.fromElem depth3Plural).toOption.map
      (ObjectClassType.preorderNamesFuel 10) =
      some ["Root", "Child", "GrandChild", "Second"] :=
  ⟨rfl, rfl⟩

/-! ## Claim C6: missing-required-field error naming -/

/-- Claim C6 (counterexample): removing the `auto_provide` attribute from
`switches` makes the conversion fail with the message
`No 'switch -> auto_provide' found`; the error does not name the dotted
schema path `switches.auto_provide` (the path is arrow-separated and labels
the section `switch`). -/
theorem c6_auto_provide_message_not_dotted :
    SwitchesType.fromElem switchesNoAuto = .error "No 'switch -> auto_provide' found" ∧
    ¬ ("switches.auto_provide".toList <:+: "No 'switch -> auto_provide' found".toList) :=
  ⟨rfl, by decide⟩

/-- Claim C6 (amended): when a mandatory child or attribute is absent the
extraction fails fast with a message of the form `No '<arrow path>' found`
rather than a dotted schema path: a `switches` element without
`auto_provide` fails with `No 'switch -> auto_provide' found` (note
`switch`, not `switches`), and an object class without a `name` child fails
with `No 'objectModel -> objects -> objectClass -> name' found`. -/
theorem c6_missing_required_message (e1 e2 : Element)
    (h1 : get_text_of_attribute e1 "auto_provide" = none)
    (h2 : e2.get_child "name" = none) :
    SwitchesType.fromElem e1 = .error "No 'switch -> auto_provide' found" ∧
    ObjectClassType.fromElem e2 =
      .error "No 'objectModel -> objects -> objectClass -> name' found" := by
  constructor
  · unfold SwitchesType.fromElem
    rw [get_attribute_as_type_or_panic_none SwitchType.fromAttr h1]
    rfl
  · unfold ObjectClassType.fromElem
    obtain ⟨n, hn⟩ : ∃ n, e2.size = n + 1 :=
      ⟨e2.size - 1, by have := Element.size_pos e2; omega⟩
    rw [hn]
    unfold ObjectClassType.fromElemFuel
    rw [get_text_of_child_element_or_panic_none h2]
    rfl

/-- Witness for C6's amended theorem at concrete elements. -/
theorem c6_missing_required_message_witness :
    SwitchesType.fromElem switchesNoAuto = .error "No 'switch -> auto_provide' found" ∧
    ObjectClassType.fromElem (.mk "objectClass" [] []) =
      .error "No 'objectModel -> objects -> objectClass -> name' found" :=
  c6_missing_required_message switchesNoAuto (.mk "objectClass" [] []) rfl rfl

/-! ## Claim C10: service utilization reads only connect and disconnect -/

/-- Claim C10: the serviceUtilization converter requires the `connect` and
`disconnect` children (conversion fails when either is missing — both
failures carry the source's `connect` message) and reads nothing else: its
result depends only on the first `connect` child and the first `disconnect`
child, so every other service child is ignored and cannot appear in the
two-field result. -/
theorem c10_service_utilization (e e' : Element) :
    (e.get_child "connect" = none →
      ServiceUtiliizationType.fromElem e =
        .error "No 'objectModel -> serviceUtilization -> connect' found") ∧
    (∀ c, e.get_child "connect" = some c → (ServiceInfoType.fromElem c).isOk = true →
      e.get_child "disconnect" = none →
      ServiceUtiliizationType.fromElem e =
        .error "No 'objectModel -> serviceUtilization -> connect' found") ∧
    (e.get_child "connect" = e'.get_child "connect" →
      e.get_child "disconnect" = e'.get_child "disconnect" →
      ServiceUtiliizationType.fromElem e = ServiceUtiliizationType.fromElem e') := by
  refine ⟨fun h => ?_, fun c hc hok hd => ?_, fun hc hd => ?_⟩
  · unfold ServiceUtiliizationType.fromElem
    rw [get_child_element_as_type_or_panic_none ServiceInfoType.fromElem h]
    rfl
  · obtain ⟨v, hv⟩ : ∃ v, ServiceInfoType.fromElem c = .ok v := by
      cases hfc : ServiceInfoType.fromElem c with
      | ok v => exact ⟨v, rfl⟩
      | error m => rw [hfc] at hok; simp [Except.isOk, Except.toBool] at hok
    unfold ServiceUtiliizationType.fromElem
    rw [get_child_element_as_type_or_panic_some ServiceInfoType.fromElem hc, hv,
      get_child_element_as_type_or_panic_none ServiceInfoType.fromElem hd]
    rfl
  · unfold ServiceUtiliizationType.fromElem get_child_element_as_type_or_panic
    rw [hc, hd]

/-- Witness for C10 at concrete serviceUtilization elements: one missing
`connect`, one missing `disconnect`, and one carrying an extra service
entry that changes nothing. -/
theorem c10_service_utilization_witness :
    ServiceUtiliizationType.fromElem suNoConnect =
      .error "No 'objectModel -> serviceUtilization -> connect' found" ∧
    ServiceUtiliizationType.fromElem suNoDisconnect =
      .error "No 'objectModel -> serviceUtilization -> connect' found" ∧
    ServiceUtiliizationType.fromElem suWithExtra =
      ServiceUtiliizationType.fromElem suPlain :=
  ⟨(c10_service_utilization suNoConnect suNoConnect).1 rfl,
   (c10_service_utilization suNoDisconnect suNoDisconnect).2.1
     (.mk "connect" [("section", "4.5"), ("isCallback", "false"), ("isUsed", "true")] [])
     rfl rfl rfl,
   (c10_service_utilization suWithExtra suPlain).2.2 rfl rfl⟩

/-! ## Claim C8: the 11 mandatory switches -/

/-- Claim C8: the switches section has exactly 11 named flags, every one
mandatory — a successful conversion implies all 11 attributes are present
(so a missing one makes it fail) — and a boolean switch flag converts
exactly the literals `true` and `false`, failing on any other text. -/
theorem c8_switches_mandatory (e : Element) (s : String) :
    switchAttributeNames.length = 11 ∧
    ((SwitchesType.fromElem e).isOk = true →
      ∀ n ∈ switchAttributeNames, (get_text_of_attribute e n).isSome = true) ∧
    (SwitchType.fromAttr s = .ok { is_enabled := true } ↔ s = "true") ∧
    (SwitchType.fromAttr s = .ok { is_enabled := false } ↔ s = "false") ∧
    (s ≠ "true" → s ≠ "false" →
      SwitchType.fromAttr s = .error ("invalid bool literal: " ++ s)) := by
  refine ⟨rfl, fun h => ?_, ?_, ?_, fun h1 h2 => ?_⟩
  · unfold SwitchesType.fromElem at h
    obtain ⟨v1, hv1, h⟩ := except_bind_isOk h
    obtain ⟨v2, hv2, h⟩ := except_bind_isOk h
    obtain ⟨v3, hv3, h⟩ := except_bind_isOk h
    obtain ⟨v4, hv4, h⟩ := except_bind_isOk h
    obtain ⟨v5, hv5, h⟩ := except_bind_isOk h
    obtain ⟨v6, hv6, h⟩ := except_bind_isOk h
    obtain ⟨v7, hv7, h⟩ := except_bind_isOk h
    obtain ⟨v8, hv8, h⟩ := except_bind_isOk h
    obtain ⟨v9, hv9, h⟩ := except_bind_isOk h
    obtain ⟨v10, hv10, h⟩ := except_bind_isOk h
    obtain ⟨v11, hv11, h⟩ := except_bind_isOk h
    intro n hn
    simp only [switchAttributeNames] at hn
    fin_cases hn
    · exact get_attribute_as_type_or_panic_isOk (by rw [hv1]; rfl)
    · exact get_attribute_as_type_or_panic_isOk (by rw [hv2]; rfl)
    · exact get_attribute_as_type_or_panic_isOk (by rw [hv3]; rfl)
    · exact get_attribute_as_type_or_panic_isOk (by rw [hv4]; rfl)
    · exact get_attribute_as_type_or_panic_isOk (by rw [hv5]; rfl)
    · exact get_attribute_as_type_or_panic_isOk (by rw [hv6]; rfl)
    · exact get_attribute_as_type_or_panic_isOk (by rw [hv7]; rfl)
    · exact get_attribute_as_type_or_panic_isOk (by rw [hv8]; rfl)
    · exact get_attribute_as_type_or_panic_isOk (by rw [hv9]; rfl)
    · exact get_attribute_as_type_or_panic_isOk (by rw [hv10]; rfl)
    · exact get_attribute_as_type_or_panic_isOk (by rw [hv11]; rfl)
  · unfold SwitchType.fromAttr parseBoolLiteral
    split_ifs <;> simp_all [Bind.bind, Except.bind, pure, Except.pure]
  · unfold SwitchType.fromAttr parseBoolLiteral
    split_ifs <;> simp_all [Bind.bind, Except.bind, pure, Except.pure]
  · unfold SwitchType.fromAttr parseBoolLiteral
    split_ifs <;> simp_all [Bind.bind, Except.bind, pure, Except.pure]

/-- Witness for C8: a fully populated switches element has `auto_provide`
present; `true` parses, `maybe` fails. -/
theorem c8_switches_mandatory_witness :
    (get_text_of_attribute switchesFull "auto_provide").isSome = true ∧
    SwitchType.fromAttr "true" = .ok { is_enabled := true } ∧
    SwitchType.fromAttr "maybe" = .error "invalid bool literal: maybe" :=
  ⟨(c8_switches_mandatory switchesFull "true").2.1 rfl "auto_provide" (by decide),
   (c8_switches_mandatory switchesFull "true").2.2.1.mpr rfl,
   (c8_switches_mandatory switchesFull "maybe").2.2.2.2 (by decide) (by decide)⟩

/-! ## Claim C3: absent versus present-but-empty collections -/

theorem mi_release_restriction_eq {e : Element} {m : ModelIdentificationType}
    (h : ModelIdentificationType.fromElem e = .ok m) :
    m.release_restriction =
      optionOfList (get_text_of_child_elements e "releaseRestriction") := by
  unfold ModelIdentificationType.fromElem at h
  simp only [except_bind_ok] at h
  obtain ⟨a1, h1, a2, h2, a3, h3, a4, h4, a5, h5, a6, h6, a7, h7, a8, h8, a9, h9,
    a10, h10, hm⟩ := h
  cases hm
  rfl

theorem attr_dimensions_eq {e : Element} {a : AttributeType}
    (h : AttributeType.fromElem e = .ok a) :
    a.dimensions = (e.get_child "dimensions").map (fun d =>
      get_text_of_child_elements_as_pure_type ReferenceType.fromElem d "dimension") := by
  unfold AttributeType.fromElem at h
  simp only [except_bind_ok] at h
  obtain ⟨a1, h1, a2, h2, a3, h3, a4, h4, a5, h5, a6, h6, a7, h7, hm⟩ := h
  cases hm
  rfl

/-- Claim C3 (counterexample): the absent-versus-empty convention is not
kept everywhere: an attribute whose `dimensions` wrapper element is present
with zero `dimension` children converts to a present-but-empty
dimension-reference list (`some []`), not to the absent representation. -/
theorem c3_empty_dimensions_wrapper_present :
    (AttributeType.fromElem attrWithEmptyDims).toOption.map (fun a => a.dimensions) =
      some (some []) ∧ some ([] : List ReferenceType) ≠ none :=
  ⟨rfl, by decide⟩

/-- Claim C3 (amended): optional repeated groups gathered directly from
same-named siblings (here the release-restriction list) are absent (`none`)
when zero elements match; the attribute's dimension-reference list is the
exception: it is gathered through a `dimensions` wrapper child, and when the
wrapper is present with zero `dimension` children the result is the
present-but-empty collection `some []` — it is `none` only when the wrapper
itself is absent. -/
theorem c3_absent_vs_empty (e1 e2 : Element) :
    (∀ m, ModelIdentificationType.fromElem e1 = .ok m →
      get_text_of_child_elements e1 "releaseRestriction" = [] →
      m.release_restriction = none) ∧
    (∀ a d, AttributeType.fromElem e2 = .ok a →
      e2.get_child "dimensions" = some d →
      childElementsNamed d "dimension" = [] →
      a.dimensions = some []) := by
  refine ⟨fun m hm hz => ?_, fun a d ha hd hz => ?_⟩
  · rw [mi_release_restriction_eq hm, hz]
    rfl
  · rw [attr_dimensions_eq ha, hd]
    simp [get_text_of_child_elements_as_pure_type, hz]

/-- Witness for C3's amended theorem at concrete elements: a model
identification with no release restrictions is absent-valued, and the
attribute with an empty `dimensions` wrapper is present-but-empty. -/
theorem c3_absent_vs_empty_witness :
    miniMi.release_restriction = none ∧ miniAttr.dimensions = some [] :=
  ⟨(c3_absent_vs_empty (miElem "MiniFom") attrWithEmptyDims).1 miniMi rfl rfl,
   (c3_absent_vs_empty (miElem "MiniFom") attrWithEmptyDims).2 miniAttr
     (.mk "dimensions" [] []) rfl rfl rfl⟩
